import Mathlib

/-!
Verification development for the TripSmart repository (a travel-planning
application).  The Lean definitions below are a shallow embedding of the
Python source files `src/trip_agents.py`, `src/main.py` and
`src/main_simple.py`:

* Pure string processing (`clean_surrogates`, `TripCrew.extract_first_city`,
  the prompt/description builders) is translated directly.  Python `re`
  patterns are embedded through a small backtracking regular-expression
  engine (`RE`, `matchRE`, `findall`) implementing Python's leftmost,
  preference-ordered matching (greedy and lazy quantifiers, ordered
  alternation, word boundaries, one capturing group per pattern, and
  `re.findall` scanning with non-overlapping continuation).  Character
  classes such as `\s` and `\w` are modelled by their ASCII parts; every
  string the claims touch is ASCII.
* Effectful calls (LLM client construction, crew kickoffs) are modelled by
  explicit outcome parameters of type `Except String _`: an `Except.error e`
  is a Python exception carrying message `e`, and a raised exception
  propagates exactly where the Python `try`/`except` structure lets it.
* Python `str` is modelled by `String` (a list of unicode scalar values)
  wherever the data is well-formed text; for `clean_surrogates`, whose whole
  point is lone surrogate code points that Lean's `Char` cannot carry, the
  finer model `PyStr := List Nat` of raw code points is used.
-/

namespace TripSmart

set_option maxRecDepth 8192

/-- Python surrogate code points: the range U+D800 to U+DFFF matched by the
regex class `[\ud800-\udfff]` in `clean_surrogates`. -/
def isSurrogateCode (n : Nat) : Bool := decide (0xD800 ≤ n) && decide (n ≤ 0xDFFF)

/-- Raw Python string: a list of code points, which unlike Lean `Char` may
contain lone surrogates. -/
def PyStr := List Nat

/-- Python values reaching `clean_surrogates`: a string, or a non-string
value (the function's `isinstance(text, str)` test only separates these two
cases; numbers and `None` stand for the non-string inputs). -/
inductive PyVal where
  | str : List Nat → PyVal
  | num : Int → PyVal
  | nullV : PyVal
deriving DecidableEq

/-- Model of `clean_surrogates` from `src/main.py` lines 22-25 (the same
function appears in `src/trip_agents.py` lines 32-35 and
`src/main_simple.py` lines 22-25): on a string, `re.sub` with the class
`[\ud800-\udfff]` and an empty replacement deletes every surrogate code
point; any non-string input is returned unchanged. -/
def clean_surrogates : PyVal → PyVal
  | PyVal.str s => PyVal.str (s.filter (fun c => !isSurrogateCode c))
  | v => v

/-- The same `clean_surrogates` at the level of Lean `String` (used by the
pipeline code on well-formed text): the filter keeps every character whose
code point is not a surrogate.  On Lean strings this is the identity in
fact, since `Char` excludes surrogates, but the definition mirrors the
Python `re.sub` literally. -/
def clean_surrogatesStr (s : String) : String :=
  String.mk (s.data.filter (fun c => !isSurrogateCode c.toNat))

/-! ## A backtracking regex engine for the four extraction patterns

Python `re` semantics: a match is searched left to right; alternatives are
tried in written order; greedy quantifiers prefer longer, lazy quantifiers
prefer shorter repetitions; `re.findall` with one capturing group returns
the group of each non-overlapping match, resuming after each match (one
position forward after an empty match). -/

/-- Regular expressions: the constructs appearing in the four patterns of
`TripCrew.extract_first_city`. -/
inductive RE where
  | lit : Char → RE
  | cls : (Char → Bool) → RE
  | seq : RE → RE → RE
  | alt : RE → RE → RE
  | grp : RE → RE
  | starG : RE → RE
  | plusL : RE → RE
  | repG : RE → Nat → Nat → RE
  | wordB : RE

/-- Matcher state: the character just before the current position (for word
boundaries), the remaining input, and the text of the capturing group once
it has closed. -/
structure MSt where
  prev : Option Char
  rest : List Char
  cap : Option (List Char)

/-- ASCII word characters, the `\w` class deciding `\b` word boundaries. -/
def isWordChar (c : Char) : Bool := c.isAlphanum || c = '_'

/-- Python `\b`: true when exactly one of the neighbouring positions holds a
word character. -/
def atBoundary (prev : Option Char) (rest : List Char) : Bool :=
  let a := match prev with | some c => isWordChar c | none => false
  let b := match rest with | c :: _ => isWordChar c | [] => false
  a != b

/-- Backtracking matcher in continuation-passing style.  `k` is what remains
to match after `r`; alternatives are tried in Python's preference order:
`alt` left first, `starG`/`repG` longer first, `plusL` shorter first.  The
fuel only bounds recursion depth; it is chosen large enough below. -/
def matchRE : Nat → RE → MSt → (MSt → Option MSt) → Option MSt
  | 0, _, _, _ => none
  | _ + 1, RE.lit c, st, k =>
    match st.rest with
    | [] => none
    | x :: xs => if x = c then k ⟨some x, xs, st.cap⟩ else none
  | _ + 1, RE.cls f, st, k =>
    match st.rest with
    | [] => none
    | x :: xs => if f x then k ⟨some x, xs, st.cap⟩ else none
  | fuel + 1, RE.seq a b, st, k =>
    matchRE fuel a st (fun st1 => matchRE fuel b st1 k)
  | fuel + 1, RE.alt a b, st, k =>
    match matchRE fuel a st k with
    | some r => some r
    | none => matchRE fuel b st k
  | fuel + 1, RE.grp a, st, k =>
    matchRE fuel a st
      (fun st1 => k ⟨st1.prev, st1.rest, some (st.rest.take (st.rest.length - st1.rest.length))⟩)
  | fuel + 1, RE.starG a, st, k =>
    match matchRE fuel a st (fun st1 =>
        if st1.rest.length < st.rest.length then matchRE fuel (RE.starG a) st1 k else none) with
    | some r => some r
    | none => k st
  | fuel + 1, RE.plusL a, st, k =>
    matchRE fuel a st (fun st1 =>
      match k st1 with
      | some r => some r
      | none =>
        if st1.rest.length < st.rest.length then matchRE fuel (RE.plusL a) st1 k else none)
  | fuel + 1, RE.repG a lo hi, st, k =>
    if hi = 0 then k st
    else if 0 < lo then
      matchRE fuel a st (fun st1 => matchRE fuel (RE.repG a (lo - 1) (hi - 1)) st1 k)
    else
      match matchRE fuel a st (fun st1 =>
          if st1.rest.length < st.rest.length then matchRE fuel (RE.repG a 0 (hi - 1)) st1 k
          else none) with
      | some r => some r
      | none => k st
  | _ + 1, RE.wordB, st, k => if atBoundary st.prev st.rest then k st else none

/-- Depth bound for the matcher: each nested call either walks into the
pattern (bounded size) or consumes input, so this is ample. -/
def matchFuel (s : List Char) : Nat := (s.length + 2) * 64

/-- One attempted match anchored at the current position. -/
def matchHere (r : RE) (prev : Option Char) (s : List Char) : Option MSt :=
  matchRE (matchFuel s) r ⟨prev, s, none⟩ some

/-- Scanner for `re.findall`: try to match at each position from left to
right; on success record the capturing group and resume after the match
(one position forward if the match was empty).  The outer fuel is one step
per input position. -/
def findallGo : Nat → RE → Option Char → List Char → List (List Char)
  | 0, _, _, _ => []
  | fuel + 1, r, prev, s =>
    match matchHere r prev s with
    | some st1 =>
      let consumed := s.length - st1.rest.length
      let cap := st1.cap.getD []
      if consumed = 0 then
        match s with
        | [] => [cap]
        | c :: cs => cap :: findallGo fuel r (some c) cs
      else cap :: findallGo fuel r st1.prev st1.rest
    | none =>
      match s with
      | [] => []
      | c :: cs => findallGo fuel r (some c) cs

/-- Python `re.findall(pattern, s)` for a pattern with one capturing group:
the list of captured groups of all non-overlapping matches. -/
def findall (r : RE) (s : List Char) : List (List Char) :=
  findallGo (s.length + 1) r none s

/-! ## The four patterns of `TripCrew.extract_first_city` -/

/-- ASCII part of the regex class `\s`. -/
def wsChar (c : Char) : Bool :=
  c = ' ' || c = '\t' || c = '\n' || c = '\x0d' || c = '\x0b' || c = '\x0c'

/-- The class `[A-Z]`. -/
def upperChar (c : Char) : Bool := decide ('A' ≤ c) && decide (c ≤ 'Z')

/-- The class `[a-zA-Z\s]`. -/
def alphaWsChar (c : Char) : Bool :=
  (decide ('a' ≤ c) && decide (c ≤ 'z')) || upperChar c || wsChar c

/-- The class `[-,:]`. -/
def punctClass (c : Char) : Bool := c = '-' || c = ',' || c = ':'

/-- The class `[-*•]` of bullet markers. -/
def bulletClass (c : Char) : Bool := c = '-' || c = '*' || c = '•'

/-- The shared capturing group `([A-Z][a-zA-Z\s]+?)`. -/
def cityGroup : RE := RE.grp (RE.seq (RE.cls upperChar) (RE.plusL (RE.cls alphaWsChar)))

/-- The shared tail `(?:,\s*[A-Z][a-zA-Z\s]+?|\s*[-,:]|\n)`. -/
def tailAlt : RE :=
  RE.alt
    (RE.seq (RE.lit ',')
      (RE.seq (RE.starG (RE.cls wsChar))
        (RE.seq (RE.cls upperChar) (RE.plusL (RE.cls alphaWsChar)))))
    (RE.alt (RE.seq (RE.starG (RE.cls wsChar)) (RE.cls punctClass)) (RE.lit '\n'))

/-- Pattern 1: `1\.\s*([A-Z][a-zA-Z\s]+?)(?:,\s*[A-Z][a-zA-Z\s]+?|\s*[-,:]|\n)`. -/
def pat1 : RE :=
  RE.seq (RE.lit '1')
    (RE.seq (RE.lit '.') (RE.seq (RE.starG (RE.cls wsChar)) (RE.seq cityGroup tailAlt)))

/-- Pattern 2: `[-*•]\s*([A-Z][a-zA-Z\s]+?)(?:,\s*[A-Z][a-zA-Z\s]+?|\s*[-,:]|\n)`. -/
def pat2 : RE :=
  RE.seq (RE.cls bulletClass)
    (RE.seq (RE.starG (RE.cls wsChar)) (RE.seq cityGroup tailAlt))

/-- Pattern 3: `(\b[A-Z][a-zA-Z\s]+?)(?:\s*[-,:])`. -/
def pat3 : RE :=
  RE.seq
    (RE.grp (RE.seq RE.wordB (RE.seq (RE.cls upperChar) (RE.plusL (RE.cls alphaWsChar)))))
    (RE.seq (RE.starG (RE.cls wsChar)) (RE.cls punctClass))

/-- Pattern 4: `([A-Z][a-zA-Z\s]{3,25})`. -/
def pat4 : RE := RE.grp (RE.seq (RE.cls upperChar) (RE.repG (RE.cls alphaWsChar) 3 25))

/-- The ordered pattern list of `extract_first_city`
(`src/trip_agents.py` lines 362-367). -/
def patterns : List RE := [pat1, pat2, pat3, pat4]

/-! ## The acceptance filters and the extraction loop -/

/-- Python `str.strip()` restricted to the ASCII whitespace the candidates
can contain. -/
def pyStrip (l : List Char) : List Char :=
  ((l.dropWhile wsChar).reverse.dropWhile wsChar).reverse

/-- Python `str.lower()`: ASCII lowering per character (`Char.toLower` lowers
exactly the ASCII uppercase letters; every candidate character is ASCII). -/
def pyLower (s : String) : String := String.mk (s.data.map Char.toLower)

/-- Substring containment on character lists: the needle is a prefix of some
suffix of the haystack. -/
def pyInChars (needle : List Char) : List Char → Bool
  | [] => needle.isEmpty
  | c :: cs => needle.isPrefixOf (c :: cs) || pyInChars needle cs

/-- Python `needle in hay` on strings: substring containment. -/
def pyIn (needle hay : String) : Bool := pyInChars needle.data hay.data

/-- The stop-word list of `extract_first_city` (`src/trip_agents.py`
line 375). -/
def excluded_words : List String :=
  ["the", "and", "for", "with", "city", "travel", "trip", "based", "type",
   "perfect", "best", "experience", "plan", "planning", "expert", "reasons", "selection"]

/-- The acceptance filter of `extract_first_city` (lines 376-379): length
over 2, not a stop word, no stop-word prefix, and no `city` suffix after
lowering. -/
def acceptCity (city : String) : Bool :=
  decide (2 < city.length) &&
  !(excluded_words.contains (pyLower city)) &&
  !(excluded_words.any (fun ew => ew.data.isPrefixOf (pyLower city).data)) &&
  !(("city" : String).data.isSuffixOf (pyLower city).data)

/-- The inner loop over one pattern's matches: strip each match and return
the first candidate passing the filter (lines 372-381). -/
def firstAccepted : List (List Char) → Option String
  | [] => none
  | m :: ms =>
    if acceptCity (String.mk (pyStrip m)) then some (String.mk (pyStrip m))
    else firstAccepted ms

/-- The outer loop over the patterns (lines 369-385): run `re.findall`, scan
its matches, and fall through to the next pattern when no candidate is
accepted; `"Paris"` when every pattern is exhausted.  Note the Python code
falls through even when a pattern had (rejected) matches: the inner `for`
ends without `return` and the outer `for` continues. -/
def extractGo : List RE → List Char → String
  | [], _ => "Paris"
  | p :: ps, s =>
    match firstAccepted (findall p s) with
    | some c => c
    | none => extractGo ps s

/-- Model of `TripCrew.extract_first_city` (`src/trip_agents.py` lines
353-385): clean the output, then run the pattern chain. -/
def extract_first_city (city_output : String) : String :=
  extractGo patterns (clean_surrogatesStr city_output).data

/-! ## Provider initialization: `TripAgents._initialize_llm`

The constructor `LLM(...)` of the `crewai` library is external: it is
modelled by an oracle `build : LLMSpec → Except String C` giving, for
each provider/model specification, the outcome of client construction
(`Except.error e` models a raised exception with message `e`).  Besides the
outcome, the model returns the list of the specifications attempted, in
order, so that theorems can speak about which constructions were tried. -/

/-- A provider/model specification, the data distinguishing one `LLM(...)`
construction attempt from another in `_initialize_llm`. -/
structure LLMSpec where
  provider : String
  model : String
deriving DecidableEq

/-- The credential environment read by `_initialize_llm`: presence of the
three API keys and the `LITELLM_MODEL` variable. -/
structure LLMEnv where
  groq_key : Option String
  hf_key : Option String
  openai_key : Option String
  litellm_model : Option String

/-- Alternative Groq models (`src/trip_agents.py` lines 76-80). -/
def groq_models : List String := ["mixtral-8x7b-32768", "llama2-70b-4096", "gemma-7b-it"]

/-- Alternative Hugging Face models (lines 118-122). -/
def alternative_hf_models : List String :=
  ["google/flan-t5-base", "microsoft/DialoGPT-small", "HuggingFaceH4/zephyr-7b-beta"]

/-- One `for model in models: try ... continue` loop: attempt each spec in
order, returning the first successful client and the attempted prefix. -/
def tryModels {C : Type} (build : LLMSpec → Except String C) :
    List LLMSpec → Option C × List LLMSpec
  | [] => (none, [])
  | s :: rest =>
    match build s with
    | Except.ok c => (some c, [s])
    | Except.error _ =>
      match tryModels build rest with
      | (r, att) => (r, s :: att)

/-- The message of the `RuntimeError` raised when every attempt failed
(`src/trip_agents.py` line 160). -/
def noLLMMessage : String :=
  "No valid LLM could be initialized. Please check your API keys and model configurations in .env.local."

/-- Model of `TripAgents._initialize_llm` (`src/trip_agents.py` lines
46-160): Groq primary then alternative Groq models (only when
`GROQ_API_KEY` is present), then the configured Hugging Face model and its
alternatives (only when `HUGGINGFACE_API_KEY` is present), then the OpenAI
fallback (only when `OPENAI_API_KEY` is present); the first successful
construction is returned at once, and when everything is exhausted a
`RuntimeError` with the fixed message `noLLMMessage` is raised.  The second
component lists the attempted specifications in order. -/
def _initialize_llm {C : Type} (env : LLMEnv) (build : LLMSpec → Except String C) :
    Except String C × List LLMSpec :=
  match
    (match env.groq_key with
     | some _ =>
       match build ⟨"groq", "llama3-8b-8192"⟩ with
       | Except.ok c => (some c, [(⟨"groq", "llama3-8b-8192"⟩ : LLMSpec)])
       | Except.error _ =>
         match tryModels build (groq_models.map (fun m => ⟨"groq", m⟩)) with
         | (r, att) => (r, (⟨"groq", "llama3-8b-8192"⟩ : LLMSpec) :: att)
     | none => (none, []) : Option C × List LLMSpec)
  with
  | (some c, att) => (Except.ok c, att)
  | (none, att1) =>
    match
      (match env.hf_key with
       | some _ =>
         match build ⟨"huggingface", env.litellm_model.getD "microsoft/DialoGPT-medium"⟩ with
         | Except.ok c =>
           (some c, [(⟨"huggingface", env.litellm_model.getD "microsoft/DialoGPT-medium"⟩ : LLMSpec)])
         | Except.error _ =>
           match tryModels build (alternative_hf_models.map (fun m => ⟨"huggingface", m⟩)) with
           | (r, att) =>
             (r, (⟨"huggingface", env.litellm_model.getD "microsoft/DialoGPT-medium"⟩ : LLMSpec) :: att)
       | none => (none, []) : Option C × List LLMSpec)
    with
    | (some c, att) => (Except.ok c, att1 ++ att)
    | (none, att2) =>
      match env.openai_key with
      | some _ =>
        match build ⟨"openai", "gpt-3.5-turbo"⟩ with
        | Except.ok c => (Except.ok c, att1 ++ att2 ++ [(⟨"openai", "gpt-3.5-turbo"⟩ : LLMSpec)])
        | Except.error _ =>
          (Except.error noLLMMessage, att1 ++ att2 ++ [(⟨"openai", "gpt-3.5-turbo"⟩ : LLMSpec)])
      | none => (Except.error noLLMMessage, att1 ++ att2)

/-- Model of `TripAgents.__init__` (`src/trip_agents.py` lines 38-44): the
`RuntimeError` raised inside `_initialize_llm` propagates out of the
constructor (the additional `if not self.llm` guard is unreachable because
`_initialize_llm` either returns a client or raises). -/
def TripAgents.init {C : Type} (env : LLMEnv) (build : LLMSpec → Except String C) :
    Except String C :=
  (_initialize_llm env build).1

/-! ## The pipeline: `TripCrew.run` -/

/-- The preference dictionary consumed by `TripTasks` via `inputs.get` with
per-field defaults: absent keys are `none`. -/
structure Inputs where
  travel_type : Option String
  interests : Option String
  season : Option String
  budget : Option String
  duration : Option String

/-- Description of `TripTasks.city_research_task` (`src/trip_agents.py`
lines 249-261), the f-string with `{city}` interpolated. -/
def city_research_task_description (city : String) : String :=
  "\n        Provide comprehensive research about " ++ city ++ " including:\n\n        1. TOP 5 ATTRACTIONS: Must-visit places with brief descriptions and estimated time to visit each.\n        2. LOCAL CUISINE: Signature dishes and where to find them (e.g., specific types of restaurants or markets).\n        3. CULTURAL INSIGHTS: Important customs, etiquette, and cultural norms (e.g., tipping, greetings).\n        4. ACCOMMODATION: Best areas to stay for different budgets (e.g., luxury, mid-range, budget) and types of lodging.\n        5. TRANSPORTATION: How to get around the city efficiently (public transport, taxis, ride-shares) and airport transfers.\n        6. BEST TIME TO VISIT: Optimal months, what to expect regarding weather and crowds, and major events if any.\n        7. PRACTICAL TIPS: Essential information for first-time visitors (e.g., currency, safety, language basics, common scams).\n\n        Make this practical and actionable for travelers, using bullet points or numbered lists where appropriate for clarity.\n        "

/-- Description of `TripTasks.itinerary_creation_task` (lines 274-298), the
f-string with `{duration}`, `{travel_type}`, `{interests}` and `{city}`
interpolated after their `inputs.get` defaults. -/
def itinerary_creation_task_description (inputs : Inputs) (city : String) : String :=
  "\n        Create a detailed " ++ inputs.duration.getD "3" ++ "-day itinerary for " ++ city ++ " based on:\n        - Travel Type: " ++ inputs.travel_type.getD "leisure" ++ "\n        - Interests: " ++ inputs.interests.getD "general sightseeing" ++ "\n        - Duration: " ++ inputs.duration.getD "3" ++ " days\n        - Current location: Surat, Gujarat, India (Consider this for travel logistics if applicable, but focus on the destination city itself)\n\n        For each day, include:\n        1. DAY NUMBER: Clearly state the day (e.g., 'Day 1: Arrival and City Exploration')\n        2. Morning activities (9 AM - 12 PM) with specific attractions/locations\n        3. Afternoon activities (12 PM - 5 PM) with specific attractions/locations\n        4. Evening activities (5 PM - 9 PM) including recommendations for dinner/nightlife\n        5. Recommended restaurants for each meal (Breakfast, Lunch, Dinner) with type of cuisine\n        6. Estimated transportation methods between locations (e.g., 'walk', 'metro', 'taxi')\n        7. Estimated time for each activity\n        8. Any booking requirements or tips (e.g., 'Book in advance', 'Wear comfortable shoes')\n\n        Make sure activities are geographically logical, account for realistic travel time between locations,\n        and maximize the experience given the specified travel type and interests.\n        "

/-- Description of `TripTasks.budget_planning_task` (lines 310-334), the
f-string with `{duration}`, `{city}` and `{budget_range}` interpolated
after their `inputs.get` defaults. -/
def budget_planning_task_description (inputs : Inputs) (city : String) : String :=
  "\n        Create a realistic budget plan for a " ++ inputs.duration.getD "3" ++ "-day trip to " ++ city ++ " assuming a " ++ inputs.budget.getD "moderate" ++ " budget.\n        Consider that the traveler is from Surat, Gujarat, India, which might influence spending habits or expectations.\n\n        Break down costs for the following categories:\n        1. ACCOMMODATION: Per night costs and total for " ++ inputs.duration.getD "3" ++ " nights. Provide options for the given budget.\n        2. MEALS: Daily averages for Breakfast, Lunch, Dinner. Provide typical costs for different meal types.\n        3. TRANSPORTATION: Local transport (daily passes, single rides), airport transfers (round trip), and potentially inter-city travel if applicable.\n        4. ATTRACTIONS: Entry fees for major sights and activities.\n        5. SHOPPING & MISCELLANEOUS: Estimated daily allowance for souvenirs, snacks, coffee, and small purchases.\n        6. EMERGENCY FUND: A recommended 10-15% buffer of the total estimated cost.\n\n        Provide:\n        - Daily budget estimates for each category.\n        - Total estimated budget for the entire " ++ inputs.duration.getD "3" ++ "-day trip.\n        - Money-saving tips specific to " ++ city ++ ".\n        - Splurge recommendations (e.g., a fancy dinner, unique experience) with estimated costs.\n\n        Use currency relevant to the destination city or provide a clear indication (e.g., USD, EUR, local currency).\n        "

/-- One element of `crewai`'s `tasks_output`: a task's description and its
raw text result (the `hasattr(task_result, 'raw')` probe is modelled by the
field being present). -/
structure TaskOutput where
  description : String
  raw : String

/-- The second `Crew.kickoff` result object: `tasks_output` when the
attribute exists (`none` models the attribute missing), and the string the
fallback branch reads from the object otherwise. -/
structure DetailedResults where
  tasks_output : Option (List TaskOutput)
  resultStr : String

/-- The effectful environment of one `TripCrew.run` call: the outcome of the
stage-1 city-selection kickoff (its raw text output, or the exception it
raised), and, as a function of the extracted city the three remaining tasks
were built from, the outcome of the second kickoff. -/
structure RunEnv where
  cityKickoff : Except String String
  stage2 : String → Except String DetailedResults

/-- The result record assembled by `TripCrew.run`: the four text fields of
the returned dictionary. -/
structure TripPlan where
  city_selection : String
  city_research : String
  itinerary : String
  budget_plan : String
deriving DecidableEq

/-- The per-task dispatch of `TripCrew.run` (`src/trip_agents.py` lines
433-444): starting from the three "No ... available" defaults, each task
result whose lowered description contains "research", "itinerary" or
"budget" (checked in that order) overwrites the corresponding field. -/
def dispatchOutputs (outs : List TaskOutput) : String × String × String :=
  outs.foldl
    (fun acc t =>
      if pyIn "research" (pyLower t.description) then (t.raw, acc.2.1, acc.2.2)
      else if pyIn "itinerary" (pyLower t.description) then (acc.1, t.raw, acc.2.2)
      else if pyIn "budget" (pyLower t.description) then (acc.1, acc.2.1, t.raw)
      else acc)
    ("No research available", "No itinerary available", "No budget available")

/-- The record returned by the `except` branch of `TripCrew.run` (lines
462-472) when an exception with message `e` was caught. -/
def errorTripPlan (e : String) : TripPlan :=
  { city_selection :=
      "Error occurred during city selection: " ++ e ++ ". Please check your API configuration and try again."
    city_research := "Unable to generate due to error"
    itinerary := "Unable to generate due to error"
    budget_plan := "Unable to generate due to error" }

/-- Model of `TripCrew.run` (`src/trip_agents.py` lines 387-472) for an
already constructed `TripCrew`: every exception inside the body is caught
by the single `try`/`except` and converted to `errorTripPlan`; on the happy
path the extracted city feeds the second kickoff, whose `tasks_output` is
dispatched by description (with the string-parsing fallback when the
attribute is missing or the list empty), and all four fields pass through
`clean_surrogates`. -/
def TripCrew.run : RunEnv → TripPlan
  | ⟨Except.error e, _⟩ => errorTripPlan e
  | ⟨Except.ok city_output_raw, stage2⟩ =>
    match stage2 (extract_first_city city_output_raw) with
    | Except.error e => errorTripPlan e
    | Except.ok det =>
      match
        (match det.tasks_output with
         | some outs =>
           if outs.isEmpty then (det.resultStr, det.resultStr, det.resultStr)
           else dispatchOutputs outs
         | none => (det.resultStr, det.resultStr, det.resultStr))
      with
      | (research, itin, budget) =>
        { city_selection := clean_surrogatesStr city_output_raw
          city_research := clean_surrogatesStr research
          itinerary := clean_surrogatesStr itin
          budget_plan := clean_surrogatesStr budget }

/-- Model of the whole call `TripCrew(inputs).run()` as `src/main.py` line
60 performs it: `TripCrew.__init__` constructs `TripAgents()`, so a
provider-initialization failure raises out of the constructor and `run` is
never reached; only with a constructed crew does `run` produce a
`TripPlan`. -/
def TripCrew.run_pipeline {C : Type} (env : LLMEnv) (build : LLMSpec → Except String C)
    (renv : RunEnv) : Except String TripPlan :=
  match TripAgents.init env build with
  | Except.error e => Except.error e
  | Except.ok _ => Except.ok (TripCrew.run renv)

/-! ## The prompt builders of `src/main_simple.py`

Each `generate_*` function of `main_simple.py` builds an f-string prompt
and sends it to the Groq client; the prompt construction is the pure part
modelled here (the network call is outside the model). -/

/-- The preference record assembled in `main_simple.main` (lines 157-163):
all fields are strings except the slider's integer duration, which the
f-strings render with `str`. -/
structure SimpleInputs where
  travel_type : String
  interests : String
  season : String
  duration : Nat
  budget : String

/-- The prompt of `generate_city_recommendations` (`src/main_simple.py`
lines 40-59). -/
def generate_city_recommendations_prompt (inputs : SimpleInputs) : String :=
  "\n    As a travel expert, recommend 3 best cities to visit based on these preferences:\n    \n    Travel Type: " ++ inputs.travel_type ++ "\n    Interests: " ++ inputs.interests ++ "\n    Season: " ++ inputs.season ++ "\n    Budget Range: " ++ inputs.budget ++ "\n    Duration: " ++ toString inputs.duration ++ " days\n    \n    For each city, provide:\n    1. City name and country\n    2. Why it matches their travel type and interests\n    3. Why it's perfect for the specified season\n    4. Brief highlight of what makes it special\n    \n    Format as a numbered list with city names clearly stated.\n    "

/-- The prompt of `generate_destination_research` (lines 61-80). -/
def generate_destination_research_prompt (city : String) (inputs : SimpleInputs) : String :=
  "\n    Provide comprehensive research about " ++ city ++ " for a traveler with these preferences:\n    Travel Type: " ++ inputs.travel_type ++ "\n    Interests: " ++ inputs.interests ++ "\n    Duration: " ++ toString inputs.duration ++ " days\n    \n    Include:\n    1. TOP 5 ATTRACTIONS: Must-visit places with brief descriptions and estimated time\n    2. LOCAL CUISINE: Signature dishes and where to find them\n    3. CULTURAL INSIGHTS: Important customs, etiquette, and cultural norms\n    4. ACCOMMODATION: Best areas to stay for different budgets\n    5. TRANSPORTATION: How to get around the city efficiently\n    6. BEST TIME TO VISIT: Optimal months, weather, and crowds\n    7. PRACTICAL TIPS: Currency, safety, language basics, common scams\n    \n    Make this practical and actionable for travelers.\n    "

/-- The prompt of `generate_itinerary` (lines 82-102). -/
def generate_itinerary_prompt (city : String) (inputs : SimpleInputs) : String :=
  "\n    Create a detailed " ++ toString inputs.duration ++ "-day itinerary for " ++ city ++ " based on:\n    - Travel Type: " ++ inputs.travel_type ++ "\n    - Interests: " ++ inputs.interests ++ "\n    - Duration: " ++ toString inputs.duration ++ " days\n    \n    For each day, include:\n    1. DAY NUMBER: Clearly state the day (e.g., 'Day 1: Arrival and City Exploration')\n    2. Morning activities (9 AM - 12 PM) with specific attractions/locations\n    3. Afternoon activities (12 PM - 5 PM) with specific attractions/locations\n    4. Evening activities (5 PM - 9 PM) including dinner recommendations\n    5. Recommended restaurants for each meal with cuisine type\n    6. Transportation methods between locations\n    7. Estimated time for each activity\n    8. Booking requirements or tips\n    \n    Make activities geographically logical and account for travel time.\n    "

/-- The prompt of `generate_budget_plan` (lines 104-126). -/
def generate_budget_plan_prompt (city : String) (inputs : SimpleInputs) : String :=
  "\n    Create a realistic budget plan for a " ++ toString inputs.duration ++ "-day trip to " ++ city ++ " \n    with a " ++ inputs.budget ++ " budget.\n    \n    Break down costs for:\n    1. ACCOMMODATION: Per night costs and total\n    2. MEALS: Daily averages for Breakfast, Lunch, Dinner\n    3. TRANSPORTATION: Local transport, airport transfers\n    4. ATTRACTIONS: Entry fees for major sights\n    5. SHOPPING & MISCELLANEOUS: Daily allowance for souvenirs, snacks\n    6. EMERGENCY FUND: 10-15% buffer of total cost\n    \n    Provide:\n    - Daily budget estimates for each category\n    - Total estimated budget for the entire trip\n    - Money-saving tips specific to " ++ city ++ "\n    - Splurge recommendations with costs\n    \n    Use local currency or USD with clear indication.\n    "

/-! ## Helper lemmas -/

theorem isPrefixOf_self_append (n m : List Char) : n.isPrefixOf (n ++ m) = true := by
  induction n with
  | nil => simp [List.isPrefixOf]
  | cons a as ih => simp [List.isPrefixOf, ih]

theorem isPrefixOf_append_left {n l : List Char} (m : List Char)
    (h : n.isPrefixOf l = true) : n.isPrefixOf (l ++ m) = true := by
  induction n generalizing l with
  | nil => simp [List.isPrefixOf]
  | cons a as ih =>
    cases l with
    | nil => simp [List.isPrefixOf] at h
    | cons b bs =>
      simp only [List.isPrefixOf, Bool.and_eq_true, beq_iff_eq] at h
      simp only [List.cons_append, List.isPrefixOf, Bool.and_eq_true, beq_iff_eq]
      exact ⟨h.1, ih h.2⟩

theorem pyInChars_nil (l : List Char) : pyInChars [] l = true := by
  cases l <;> simp [pyInChars, List.isPrefixOf, List.isEmpty]

theorem pyInChars_of_isPrefixOf {n l : List Char} (h : n.isPrefixOf l = true) :
    pyInChars n l = true := by
  cases l with
  | nil =>
    cases n with
    | nil => rfl
    | cons a as => simp [List.isPrefixOf] at h
  | cons c cs => simp [pyInChars, h]

theorem pyInChars_append_right {n b : List Char} (a : List Char)
    (h : pyInChars n b = true) : pyInChars n (a ++ b) = true := by
  induction a with
  | nil => simpa using h
  | cons c cs ih => simp [pyInChars, ih]

theorem pyInChars_append_left {n a : List Char} (b : List Char)
    (h : pyInChars n a = true) : pyInChars n (a ++ b) = true := by
  induction a with
  | nil =>
    have hn : n = [] := by simpa [pyInChars, List.isEmpty_iff] using h
    subst hn
    exact pyInChars_nil _
  | cons c cs ih =>
    rw [List.cons_append]
    simp only [pyInChars, Bool.or_eq_true] at h ⊢
    rcases h with h | h
    · exact Or.inl (isPrefixOf_append_left b h)
    · exact Or.inr (ih h)

theorem pyIn_left {x h : String} (t : String) (hx : pyIn x h = true) :
    pyIn x (h ++ t) = true := by
  unfold pyIn at hx ⊢
  rw [String.data_append]
  exact pyInChars_append_left _ hx

theorem pyIn_right {x t : String} (h : String) (hx : pyIn x t = true) :
    pyIn x (h ++ t) = true := by
  unfold pyIn at hx ⊢
  rw [String.data_append]
  exact pyInChars_append_right _ hx

theorem pyIn_self (x : String) : pyIn x x = true := by
  unfold pyIn
  apply pyInChars_of_isPrefixOf
  have h := isPrefixOf_self_append x.data []
  rwa [List.append_nil] at h

theorem firstAccepted_accepts {ms : List (List Char)} {c : String}
    (h : firstAccepted ms = some c) : acceptCity c = true := by
  induction ms with
  | nil => simp [firstAccepted] at h
  | cons m ms ih =>
    simp only [firstAccepted] at h
    split at h
    · cases h; assumption
    · exact ih h

theorem acceptCity_parts {c : String} (h : acceptCity c = true) :
    2 < c.length ∧ ("city" : String).data.isSuffixOf (pyLower c).data = false := by
  simp only [acceptCity, Bool.and_eq_true, Bool.not_eq_true', decide_eq_true_eq] at h
  exact ⟨h.1.1.1, h.2⟩

theorem extractGo_cases : ∀ (ps : List RE) (s : List Char),
    extractGo ps s = "Paris" ∨ acceptCity (extractGo ps s) = true
  | [], _ => Or.inl rfl
  | p :: ps, s => by
    cases hfa : firstAccepted (findall p s) with
    | none =>
      have := extractGo_cases ps s
      simpa [extractGo, hfa] using this
    | some c =>
      right
      simpa [extractGo, hfa] using firstAccepted_accepts hfa

theorem extractGo_all_none : ∀ (ps : List RE) (s : List Char),
    (∀ p ∈ ps, firstAccepted (findall p s) = none) → extractGo ps s = "Paris"
  | [], _, _ => rfl
  | p :: ps, s, h => by
    have hp : firstAccepted (findall p s) = none := h p (by simp)
    have hps := extractGo_all_none ps s (fun q hq => h q (by simp [hq]))
    simpa [extractGo, hp] using hps

theorem extractGo_findSome : ∀ (ps : List RE) (s : List Char),
    extractGo ps s = (ps.findSome? (fun p => firstAccepted (findall p s))).getD "Paris"
  | [], _ => rfl
  | p :: ps, s => by
    cases hfa : firstAccepted (findall p s) with
    | none => simpa [extractGo, List.findSome?, hfa] using extractGo_findSome ps s
    | some c => simp [extractGo, List.findSome?, hfa]

theorem tryModels_fails {C : Type} (build : LLMSpec → Except String C)
    (h : ∀ s c, build s ≠ Except.ok c) :
    ∀ l : List LLMSpec, (tryModels build l).1 = none
  | [] => rfl
  | s :: rest => by
    cases hb : build s with
    | ok c => exact absurd hb (h s c)
    | error e => simp [tryModels, hb, tryModels_fails build h rest]

/-! ## The claims about `extract_first_city` -/

/-- C8: extract_first_city applied to "1. Paris, France - ..." returns
exactly "Paris": pattern 1 matches the numbered-list item, captures "Paris",
and the candidate passes every filter. -/
theorem C8_extract_paris : extract_first_city "1. Paris, France - ..." = "Paris" := by
  decide

/-- C4: extract_first_city is total and never fails: for every input string
the result is non-empty, and when no rule yields an accepted candidate the
fixed default "Paris" is returned (the concrete instance
extract_first_city "random text with no structure" = "Paris" is the
witness). -/
theorem C4_extract_total_default (s : String) :
    0 < (extract_first_city s).length ∧
    ((∀ p ∈ patterns, firstAccepted (findall p (clean_surrogatesStr s).data) = none) →
      extract_first_city s = "Paris") := by
  constructor
  · rcases extractGo_cases patterns (clean_surrogatesStr s).data with h | h
    · rw [extract_first_city, h]; decide
    · have h2 := (acceptCity_parts h).1
      rw [extract_first_city]
      omega
  · intro h
    exact extractGo_all_none _ _ h

/-- C4 witness: the claim's concrete instance, discharging the
no-accepted-candidate hypothesis at "random text with no structure". -/
theorem C4_witness : extract_first_city "random text with no structure" = "Paris" :=
  (C4_extract_total_default "random text with no structure").2 (by decide)

/-- C9: every value extract_first_city returns has length greater than 2 and
does not end with "city" case-insensitively: an accepted candidate passed
the filters, and the fallback "Paris" satisfies both too. -/
theorem C9_extract_postcondition (s : String) :
    2 < (extract_first_city s).length ∧
    ("city" : String).data.isSuffixOf (pyLower (extract_first_city s)).data = false := by
  rcases extractGo_cases patterns (clean_surrogatesStr s).data with h | h
  · rw [extract_first_city, h]
    constructor
    · decide
    · decide
  · rw [extract_first_city]
    exact acceptCity_parts h

/-- C3 counterexample: on this input the first pattern does match
structurally (its only candidate is "The"), no candidate of it passes the
filters, and yet the extractor does not return the default: the third
pattern is tried and supplies "Lisbon".  The first rule with a structural
match therefore does not decide the outcome. -/
theorem C3_counterexample :
    findall pat1 (clean_surrogatesStr "1. The - nice. Lisbon - great.").data ≠ [] ∧
    firstAccepted (findall pat1 (clean_surrogatesStr "1. The - nice. Lisbon - great.").data)
      = none ∧
    extract_first_city "1. The - nice. Lisbon - great." = "Lisbon" := by
  refine ⟨by decide, by decide, by decide⟩

/-- C3 amended: the ordered rules form a priority chain over accepted
candidates, not over structural matches: the result is the first filter-
accepted candidate taken over the patterns in order, and the fixed default
is returned only when no pattern yields an accepted candidate.  A pattern
whose structural matches are all rejected does not stop the chain — later,
more general rules are still tried. -/
theorem C3_amended_first_accepted_wins (s : String) :
    extract_first_city s =
      ((patterns.findSome?
          (fun p => firstAccepted (findall p (clean_surrogatesStr s).data))).getD "Paris") :=
  extractGo_findSome patterns _

/-! ## The claims about `_initialize_llm` -/

/-- C5: the resolver iterates the specs in their fixed priority order and
returns the client built by the first succeeding construction, attempting
nothing after it: with the primary Groq spec failing and the first
alternative Groq model succeeding, the result is the second client, exactly
two specs were attempted, and the next spec in the chain was never
attempted. -/
theorem C5_resolver_first_success {C : Type} (env : LLMEnv) (k e : String)
    (build : LLMSpec → Except String C) (c : C)
    (hkey : env.groq_key = some k)
    (h1 : build ⟨"groq", "llama3-8b-8192"⟩ = Except.error e)
    (h2 : build ⟨"groq", "mixtral-8x7b-32768"⟩ = Except.ok c) :
    (_initialize_llm env build).1 = Except.ok c ∧
    (_initialize_llm env build).2 =
      [⟨"groq", "llama3-8b-8192"⟩, ⟨"groq", "mixtral-8x7b-32768"⟩] ∧
    (⟨"groq", "llama2-70b-4096"⟩ : LLMSpec) ∉ (_initialize_llm env build).2 := by
  have hmain : _initialize_llm env build =
      (Except.ok c, [⟨"groq", "llama3-8b-8192"⟩, ⟨"groq", "mixtral-8x7b-32768"⟩]) := by
    simp [_initialize_llm, hkey, h1, h2, tryModels, groq_models]
  have hB : (_initialize_llm env build).2 =
      [⟨"groq", "llama3-8b-8192"⟩, ⟨"groq", "mixtral-8x7b-32768"⟩] := by rw [hmain]
  refine ⟨by rw [hmain], hB, ?_⟩
  rw [hB]
  decide

/-- C5 witness: a concrete environment and construction oracle realizing the
fails/succeeds pattern of the claim. -/
theorem C5_witness :
    (_initialize_llm (C := Nat) ⟨some "key", none, none, none⟩
        (fun s => if s.model = "mixtral-8x7b-32768" then Except.ok 1 else Except.error "fail")).1
      = Except.ok 1 ∧
    (_initialize_llm (C := Nat) ⟨some "key", none, none, none⟩
        (fun s => if s.model = "mixtral-8x7b-32768" then Except.ok 1 else Except.error "fail")).2
      = [⟨"groq", "llama3-8b-8192"⟩, ⟨"groq", "mixtral-8x7b-32768"⟩] ∧
    (⟨"groq", "llama2-70b-4096"⟩ : LLMSpec) ∉
      (_initialize_llm (C := Nat) ⟨some "key", none, none, none⟩
        (fun s => if s.model = "mixtral-8x7b-32768" then Except.ok 1 else Except.error "fail")).2 :=
  C5_resolver_first_success ⟨some "key", none, none, none⟩ "key" "fail" _ 1 rfl rfl rfl

/-- C6 counterexample: with a Groq key present and every construction
failing with reason "boom", the resolver raises the RuntimeError with the
fixed message, and that error does not carry the per-spec failure reason:
"boom" does not occur in it.  The error therefore does not carry the list
of per-spec failure reasons the claim describes. -/
theorem C6_counterexample :
    (_initialize_llm (C := Nat) ⟨some "key", none, none, none⟩
        (fun _ => Except.error "boom")).1 = Except.error noLLMMessage ∧
    pyIn "boom" noLLMMessage = false := by
  exact ⟨rfl, by decide⟩

/-- C6 amended: when the spec sequence is exhausted — including the case of
no credentials at all, where no spec is attempted — the resolver fails with
a RuntimeError rather than returning a client; the error carries only the
fixed message (the per-spec failure reasons are printed, not carried). -/
theorem C6_amended_exhaustion_error {C : Type} (env : LLMEnv)
    (build : LLMSpec → Except String C)
    (h : ∀ s c, build s ≠ Except.ok c) :
    (_initialize_llm env build).1 = Except.error noLLMMessage := by
  have htm := tryModels_fails build h
  unfold _initialize_llm
  cases hg : env.groq_key with
  | none =>
    cases hh : env.hf_key with
    | none =>
      cases ho : env.openai_key with
      | none => rfl
      | some k3 =>
        cases hb : build ⟨"openai", "gpt-3.5-turbo"⟩ with
        | ok c => exact absurd hb (h _ _)
        | error e => simp [hb]
    | some k2 =>
      cases hb : build ⟨"huggingface", env.litellm_model.getD "microsoft/DialoGPT-medium"⟩ with
      | ok c => exact absurd hb (h _ _)
      | error e =>
        rcases htm2 : tryModels build (alternative_hf_models.map
            (fun m => (⟨"huggingface", m⟩ : LLMSpec))) with ⟨r2, a2⟩
        have hr2 : r2 = none := by
          have := htm (alternative_hf_models.map (fun m => ⟨"huggingface", m⟩))
          rw [htm2] at this
          exact this
        subst hr2
        cases ho : env.openai_key with
        | none => simp [hb, htm2]
        | some k3 =>
          cases hb3 : build ⟨"openai", "gpt-3.5-turbo"⟩ with
          | ok c => exact absurd hb3 (h _ _)
          | error e3 => simp [hb, htm2, hb3]
  | some k1 =>
    cases hb : build ⟨"groq", "llama3-8b-8192"⟩ with
    | ok c => exact absurd hb (h _ _)
    | error e =>
      rcases htm1 : tryModels build (groq_models.map
          (fun m => (⟨"groq", m⟩ : LLMSpec))) with ⟨r1, a1⟩
      have hr1 : r1 = none := by
        have := htm (groq_models.map (fun m => ⟨"groq", m⟩))
        rw [htm1] at this
        exact this
      subst hr1
      cases hh : env.hf_key with
      | none =>
        cases ho : env.openai_key with
        | none => simp [hb, htm1]
        | some k3 =>
          cases hb3 : build ⟨"openai", "gpt-3.5-turbo"⟩ with
          | ok c => exact absurd hb3 (h _ _)
          | error e3 => simp [hb, htm1, hb3]
      | some k2 =>
        cases hb2 : build ⟨"huggingface", env.litellm_model.getD "microsoft/DialoGPT-medium"⟩ with
        | ok c => exact absurd hb2 (h _ _)
        | error e2 =>
          rcases htm2 : tryModels build (alternative_hf_models.map
              (fun m => (⟨"huggingface", m⟩ : LLMSpec))) with ⟨r2, a2⟩
          have hr2 : r2 = none := by
            have := htm (alternative_hf_models.map (fun m => ⟨"huggingface", m⟩))
            rw [htm2] at this
            exact this
          subst hr2
          cases ho : env.openai_key with
          | none => simp [hb, htm1, hb2, htm2]
          | some k3 =>
            cases hb3 : build ⟨"openai", "gpt-3.5-turbo"⟩ with
            | ok c => exact absurd hb3 (h _ _)
            | error e3 => simp [hb, htm1, hb2, htm2, hb3]

/-- C6 witness: the empty-spec-list instance of the claim: with no
credentials configured, nothing is attempted and the resolver fails with
the fixed RuntimeError message. -/
theorem C6_witness :
    (_initialize_llm (C := Nat) ⟨none, none, none, none⟩
        (fun _ => Except.error "x")).1 = Except.error noLLMMessage :=
  C6_amended_exhaustion_error ⟨none, none, none, none⟩ _
    (fun _ _ hc => Except.noConfusion hc)

/-! ## The claims about the prompt builders -/

/-- C7 counterexample: the stage-2 research prompt does not interpolate the
season: with season "Winter" (and every other field set), the research
prompt does not contain "Winter" as a substring, so not every preference
field's value reaches every stage's prompt. -/
theorem C7_counterexample :
    pyIn "Winter"
      (generate_destination_research_prompt "Paris"
        ⟨"Leisure", "Food", "Winter", 7, "Mid-range (Rs1500-Rs4000)"⟩) = false := by
  decide

/-- C7 amended: the stage-1 prompt contains every preference field's value
as a substring; the stage-2, stage-3 and stage-4 prompts contain the
resolved city name and the fields they actually interpolate — travel type,
interests and duration for research and itinerary, and duration and the
budget tier for the budget stage.  The remaining fields (season and budget
for stages 2-3; travel type, interests and season for stage 4) are not
interpolated, as the counterexample shows. -/
theorem C7_amended_prompt_interpolation (inp : SimpleInputs) (city : String) :
    (pyIn inp.travel_type (generate_city_recommendations_prompt inp) = true ∧
     pyIn inp.interests (generate_city_recommendations_prompt inp) = true ∧
     pyIn inp.season (generate_city_recommendations_prompt inp) = true ∧
     pyIn inp.budget (generate_city_recommendations_prompt inp) = true ∧
     pyIn (toString inp.duration) (generate_city_recommendations_prompt inp) = true) ∧
    (pyIn city (generate_destination_research_prompt city inp) = true ∧
     pyIn inp.travel_type (generate_destination_research_prompt city inp) = true ∧
     pyIn inp.interests (generate_destination_research_prompt city inp) = true ∧
     pyIn (toString inp.duration) (generate_destination_research_prompt city inp) = true) ∧
    (pyIn city (generate_itinerary_prompt city inp) = true ∧
     pyIn inp.travel_type (generate_itinerary_prompt city inp) = true ∧
     pyIn inp.interests (generate_itinerary_prompt city inp) = true ∧
     pyIn (toString inp.duration) (generate_itinerary_prompt city inp) = true) ∧
    (pyIn city (generate_budget_plan_prompt city inp) = true ∧
     pyIn inp.budget (generate_budget_plan_prompt city inp) = true ∧
     pyIn (toString inp.duration) (generate_budget_plan_prompt city inp) = true) := by
  refine ⟨⟨?_, ?_, ?_, ?_, ?_⟩, ⟨?_, ?_, ?_, ?_⟩, ⟨?_, ?_, ?_, ?_⟩, ⟨?_, ?_, ?_⟩⟩ <;>
    simp only [generate_city_recommendations_prompt, generate_destination_research_prompt,
      generate_itinerary_prompt, generate_budget_plan_prompt] <;>
    (repeat first
      | exact pyIn_right _ (pyIn_self _)
      | apply pyIn_left)

/-! ## The claim about `clean_surrogates` -/

/-- C10: clean_surrogates is idempotent on every Python value; on strings it
removes exactly the surrogate code points U+D800 to U+DFFF — a string
containing none is returned unchanged, the result contains no surrogate,
and the multiplicity of every non-surrogate code point is preserved; and
every non-string input is returned unchanged. -/
theorem C10_clean_surrogates_properties :
    (∀ v : PyVal, clean_surrogates (clean_surrogates v) = clean_surrogates v) ∧
    (∀ s : List Nat, (∀ c ∈ s, isSurrogateCode c = false) →
      clean_surrogates (PyVal.str s) = PyVal.str s) ∧
    (∀ s t : List Nat, clean_surrogates (PyVal.str s) = PyVal.str t →
      (∀ c ∈ t, isSurrogateCode c = false) ∧
      (∀ c : Nat, isSurrogateCode c = false → t.count c = s.count c)) ∧
    (∀ n : Int, clean_surrogates (PyVal.num n) = PyVal.num n) ∧
    clean_surrogates PyVal.nullV = PyVal.nullV := by
  refine ⟨?_, ?_, ?_, fun _ => rfl, rfl⟩
  · intro v
    cases v with
    | str s =>
      simp only [clean_surrogates, PyVal.str.injEq]
      induction s with
      | nil => rfl
      | cons c cs ih =>
        by_cases hc : isSurrogateCode c = false
        · simp [List.filter_cons, hc, ih]
        · simp only [Bool.not_eq_false] at hc
          simp [List.filter_cons, hc, ih]
    | num n => rfl
    | nullV => rfl
  · intro s h
    simp only [clean_surrogates, PyVal.str.injEq]
    induction s with
    | nil => rfl
    | cons c cs ih =>
      have hc := h c (by simp)
      simp [List.filter_cons, hc, ih (fun x hx => h x (by simp [hx]))]
  · intro s t h
    simp only [clean_surrogates, PyVal.str.injEq] at h
    subst h
    constructor
    · intro c hc
      have := List.of_mem_filter hc
      simpa using this
    · intro c hc
      induction s with
      | nil => rfl
      | cons d ds ih =>
        by_cases hd : isSurrogateCode d = false
        · simp [List.filter_cons, hd, List.count_cons, ih]
        · simp only [Bool.not_eq_false] at hd
          have hdc : ¬ (d = c) := by
            intro hdc
            subst hdc
            simp [hc] at hd
          simp [List.filter_cons, hd, List.count_cons, ih, hdc]

/-- C10 witness: the string-unchanged part of the claim at a concrete
surrogate-free string, together with idempotence at a string holding a lone
surrogate. -/
theorem C10_witness :
    clean_surrogates (PyVal.str [72, 105]) = PyVal.str [72, 105] ∧
    clean_surrogates (clean_surrogates (PyVal.str [72, 0xD800, 105])) =
      clean_surrogates (PyVal.str [72, 0xD800, 105]) :=
  ⟨C10_clean_surrogates_properties.2.1 [72, 105] (by decide),
   C10_clean_surrogates_properties.1 (PyVal.str [72, 0xD800, 105])⟩

/-! ## The claims about `TripCrew.run` -/

/-- C1 counterexample: when provider resolution fails — here no credential
is configured at all — the combined call `TripCrew(inputs).run()` raises
the RuntimeError out of `TripCrew.__init__` to its caller instead of
returning a TripPlan of error placeholders: the pipeline result is an
exception, not a record. -/
theorem C1_counterexample :
    TripCrew.run_pipeline (C := Nat) ⟨none, none, none, none⟩
        (fun _ => Except.error "no key")
        ⟨Except.ok "1. Paris, France - ...", fun _ => Except.ok ⟨none, "r"⟩⟩ =
      Except.error noLLMMessage := by
  rfl

/-- C1 amended: the method `TripCrew.run` itself never raises — its body is
wrapped in one `try`/`except` — and when the stage-1 city-selection kickoff
raises, the returned TripPlan has all four fields set to the error
placeholder strings.  A provider-resolution failure, however, raises out of
`TripCrew.__init__` before `run` begins, so `TripCrew(inputs).run()` raises
to its caller in that case instead of returning a placeholder record (the
counterexample). -/
theorem C1_amended_stage1_failure (renv : RunEnv) (e : String)
    (h : renv.cityKickoff = Except.error e) :
    TripCrew.run renv =
      { city_selection := "Error occurred during city selection: " ++ e ++
          ". Please check your API configuration and try again."
        city_research := "Unable to generate due to error"
        itinerary := "Unable to generate due to error"
        budget_plan := "Unable to generate due to error" } := by
  obtain ⟨ck, st2⟩ := renv
  simp only at h
  subst h
  rfl

/-- C1 witness: the stage-1 failure path at a concrete exception message. -/
theorem C1_witness :
    TripCrew.run ⟨Except.error "boom", fun _ => Except.ok ⟨none, "r"⟩⟩ =
      { city_selection :=
          "Error occurred during city selection: boom. Please check your API configuration and try again."
        city_research := "Unable to generate due to error"
        itinerary := "Unable to generate due to error"
        budget_plan := "Unable to generate due to error" } :=
  C1_amended_stage1_failure ⟨Except.error "boom", fun _ => Except.ok ⟨none, "r"⟩⟩ "boom" rfl

/-- C2: per-stage isolation after a successful stage 1: when the second
kickoff returns task outputs for the research and budget tasks (their
descriptions built from the extracted city) but none for the itinerary
task — the itinerary stage's failure — only the itinerary field carries the
placeholder "No itinerary available", while city selection, research and
budget keep their values. -/
theorem C2_itinerary_stage_isolation (cityRaw rRaw bRaw fallback : String)
    (hcity : extract_first_city cityRaw = "Paris") :
    TripCrew.run
      ⟨Except.ok cityRaw,
       fun city => Except.ok
         ⟨some [⟨clean_surrogatesStr (city_research_task_description city), rRaw⟩,
                ⟨clean_surrogatesStr (budget_planning_task_description
                    ⟨some "Leisure", some "Food, Nature", some "Summer",
                     some "Mid-range (Rs1500-Rs4000)", some "7"⟩ city), bRaw⟩],
          fallback⟩⟩ =
      { city_selection := clean_surrogatesStr cityRaw
        city_research := clean_surrogatesStr rRaw
        itinerary := "No itinerary available"
        budget_plan := clean_surrogatesStr bRaw } := by
  simp only [TripCrew.run]
  rw [hcity]
  rfl

/-- C2 witness: the isolation at a concrete stage-1 output whose extracted
city is "Paris" and concrete stage outputs. -/
theorem C2_witness :
    TripCrew.run
      ⟨Except.ok "1. Paris, France - ...",
       fun city => Except.ok
         ⟨some [⟨clean_surrogatesStr (city_research_task_description city), "R"⟩,
                ⟨clean_surrogatesStr (budget_planning_task_description
                    ⟨some "Leisure", some "Food, Nature", some "Summer",
                     some "Mid-range (Rs1500-Rs4000)", some "7"⟩ city), "B"⟩],
          "F"⟩⟩ =
      { city_selection := clean_surrogatesStr "1. Paris, France - ..."
        city_research := clean_surrogatesStr "R"
        itinerary := "No itinerary available"
        budget_plan := clean_surrogatesStr "B" } :=
  C2_itinerary_stage_isolation "1. Paris, France - ..." "R" "B" "F" (by decide)

end TripSmart
